import Mathlib

/-!
Shallow embedding of the StockGuard real-time notification core
(`backend/app/websockets.py`) and of the product-update endpoint
(`backend/app/main.py`, `update_product`), together with theorems about
the spec's testable properties.

Modelling conventions:
* A WebSocket connection is an opaque handle, modelled as a natural number.
* `datetime.now().isoformat()` timestamps are modelled as a logical clock:
  every operation that stamps the time takes the current instant `now : Nat`
  as an explicit argument; process start is instant 0.
* Python integers are modelled as `Int` (the client counter can in principle
  be driven towards negative values and is floored by `max 0 _`, exactly as
  in the source).
* The network environment of a broadcast is modelled by the list `failSet`
  of connections whose `send_json` raises; `send_json` returns
  `Except String Unit` so that an uncaught exception would surface in the
  result type of `broadcast`.
* Locks serialize the critical sections; since every claim is about states
  with no call in flight, each locked critical section is one atomic step
  of the embedding.
-/

/-- Opaque handle to one client WebSocket connection. -/
abbrev Conn := Nat

/-- The three fields guarded by `ServerStatus._lock` in
`backend/app/websockets.py`. -/
structure ServerStatus where
  status : String
  timestamp : Nat
  connected_clients : Int
deriving DecidableEq

/-- Constructor `ServerStatus.__init__`: status "Online", fresh timestamp (process start
is modelled as instant 0), zero clients. -/
def ServerStatus.init : ServerStatus :=
  { status := "Online", timestamp := 0, connected_clients := 0 }

/-- Method `ServerStatus.update_status`: set the status and refresh the timestamp. -/
def ServerStatus.update_status (s : ServerStatus) (st : String) (now : Nat) : ServerStatus :=
  { s with status := st, timestamp := now }

/-- Method `ServerStatus.increment_clients`: add one to the counter and refresh the
timestamp. -/
def ServerStatus.increment_clients (s : ServerStatus) (now : Nat) : ServerStatus :=
  { s with connected_clients := s.connected_clients + 1, timestamp := now }

/-- Method `ServerStatus.decrement_clients`:
`self._connected_clients = max(0, self._connected_clients - 1)` and refresh
the timestamp. -/
def ServerStatus.decrement_clients (s : ServerStatus) (now : Nat) : ServerStatus :=
  { s with connected_clients := max 0 (s.connected_clients - 1), timestamp := now }

/-- Method `ServerStatus.refresh_timestamp`: bump the timestamp only. -/
def ServerStatus.refresh_timestamp (s : ServerStatus) (now : Nat) : ServerStatus :=
  { s with timestamp := now }

/-- Category fields as stored and as serialized into broadcast payloads
(`backend/app/models.py`, `Category`). -/
structure CategoryRec where
  id : Nat
  name : String
  description : Option String
deriving DecidableEq

/-- Product fields (`backend/app/models.py`, `Product`). The price is a
pass-through payload value for every claim, modelled as an integer. -/
structure ProductRec where
  id : Nat
  name : String
  description : Option String
  price : Int
  quantity : Int
  low_stock_threshold : Int
  category_id : Option Nat
deriving DecidableEq

/-- The outbound wire messages: each constructor is one of the dict shapes
built in `main.py` / `websockets.py`, keyed by its `"type"` discriminator. -/
inductive WsMessage where
  | status (status : String) (timestamp : Nat) (connected_clients : Int)
  | product_created (product : ProductRec) (category : Option CategoryRec)
  | product_updated (product : ProductRec) (category : Option CategoryRec)
  | product_deleted (id : Nat)
  | category_created (category : CategoryRec)
  | category_updated (category : CategoryRec)
  | category_deleted (id : Nat)
  | alert (product : String) (message : String)
deriving DecidableEq

/-- The `"type"` key of the JSON object each message serializes to. -/
def WsMessage.msgType : WsMessage → String
  | .status _ _ _ => "status"
  | .product_created _ _ => "product_created"
  | .product_updated _ _ => "product_updated"
  | .product_deleted _ => "product_deleted"
  | .category_created _ => "category_created"
  | .category_updated _ => "category_updated"
  | .category_deleted _ => "category_deleted"
  | .alert _ _ => "alert"

/-- Method `ServerStatus.get_status`: atomic read of the three fields, wrapped as
the `"type": "status"` message dict. -/
def ServerStatus.get_status (s : ServerStatus) : WsMessage :=
  WsMessage.status s.status s.timestamp s.connected_clients

/-- Field `ConnectionManager.active_connections`, guarded by `_lock`. -/
structure ConnectionManager where
  active_connections : List Conn
deriving DecidableEq

/-- The whole mutable state of the websockets module: the global
`manager` and the global `server_status`. -/
structure SysState where
  manager : ConnectionManager
  server_status : ServerStatus
deriving DecidableEq

/-- Module import time: empty registry, fresh `ServerStatus`. -/
def SysState.init : SysState :=
  { manager := { active_connections := [] }, server_status := ServerStatus.init }

/-- Method `ConnectionManager.connect`: accept the handshake, append the connection
to the list, then `server_status.increment_clients()`. -/
def SysState.connect (s : SysState) (ws : Conn) (now : Nat) : SysState :=
  { manager := { active_connections := s.manager.active_connections ++ [ws] },
    server_status := s.server_status.increment_clients now }

/-- Method `ConnectionManager.disconnect`: remove the connection if present
(`list.remove` drops the first occurrence), then unconditionally
`server_status.decrement_clients()`. -/
def SysState.disconnect (s : SysState) (ws : Conn) (now : Nat) : SysState :=
  { manager :=
      { active_connections :=
          if ws ∈ s.manager.active_connections then
            s.manager.active_connections.erase ws
          else
            s.manager.active_connections },
    server_status := s.server_status.decrement_clients now }

/-- Call `connection.send_json(message)`: raises exactly when the environment
lists this connection as failing. -/
def send_json (failSet : List Conn) (c : Conn) (_msg : WsMessage) : Except String Unit :=
  if c ∈ failSet then Except.error "send failed" else Except.ok ()

/-- The fan-out loop of `ConnectionManager.broadcast`: for each connection
of the snapshot, try `send_json`, and on exception pass.  Returns the send
attempts and the successful deliveries, each as (connection, message) pairs;
an exception escaping the `try`/`except` would surface as `Except.error`. -/
def broadcastGo (failSet : List Conn) (msg : WsMessage) :
    List Conn → Except String (List (Conn × WsMessage) × List (Conn × WsMessage))
  | [] => Except.ok ([], [])
  | c :: rest =>
    let sent :=
      match send_json failSet c msg with
      | Except.ok _ => true
      | Except.error _ => false
    match broadcastGo failSet msg rest with
    | Except.ok (att, del) =>
        Except.ok ((c, msg) :: att, if sent then (c, msg) :: del else del)
    | Except.error e => Except.error e

/-- Method `ConnectionManager.broadcast`: copy the connection list under the lock,
then fan the message out to the copy. -/
def ConnectionManager.broadcast (m : ConnectionManager) (msg : WsMessage)
    (failSet : List Conn) :
    Except String (List (Conn × WsMessage) × List (Conn × WsMessage)) :=
  let connections := m.active_connections
  broadcastGo failSet msg connections

/-- Global `manager.broadcast` as a step on the whole module state: the method body
assigns to no field, so the state passes through unchanged; the outputs are
the attempted and delivered sends. -/
def SysState.broadcastStep (s : SysState) (msg : WsMessage) (failSet : List Conn) :
    SysState × (List (Conn × WsMessage) × List (Conn × WsMessage)) :=
  match s.manager.broadcast msg failSet with
  | Except.ok logs => (s, logs)
  | Except.error _ => (s, ([], []))

/-- One iteration of `broadcast_server_status`: refresh the timestamp,
read the status snapshot, broadcast it. -/
def heartbeatTick (s : SysState) (now : Nat) (failSet : List Conn) :
    SysState × WsMessage × (List (Conn × WsMessage) × List (Conn × WsMessage)) :=
  let status1 := s.server_status.refresh_timestamp now
  let status_message := status1.get_status
  let s1 : SysState := { s with server_status := status1 }
  let (s2, logs) := s1.broadcastStep status_message failSet
  (s2, status_message, logs)

/-- Loop `broadcast_server_status`, run for `n` ticks from instant `t`: each tick
does refresh / snapshot / broadcast and then `asyncio.sleep(5)` advances the
clock by the fixed period 5.  Returns the per-tick message and send logs,
and the final state. -/
def broadcast_server_status (s : SysState) (t : Nat) (failSet : List Conn) :
    Nat → List (WsMessage × (List (Conn × WsMessage) × List (Conn × WsMessage))) × SysState
  | 0 => ([], s)
  | n + 1 =>
    let (s1, msg, logs) := heartbeatTick s t failSet
    let (rest, sEnd) := broadcast_server_status s1 (t + 5) failSet n
    ((msg, logs) :: rest, sEnd)

/-! ## The product-update endpoint (`backend/app/main.py`, `update_product`) -/

/-- Schema `schemas.ProductUpdate`: every field optional; an omitted field is
excluded by `model_dump(exclude_unset=True)` and is modelled as `none`.
For the two nullable columns the set value itself is again an `Option`. -/
structure ProductUpdate where
  name : Option String := none
  description : Option (Option String) := none
  price : Option Int := none
  quantity : Option Int := none
  low_stock_threshold : Option Int := none
  category_id : Option (Option Nat) := none
deriving DecidableEq

/-- The database tables consulted by `update_product`. -/
structure DB where
  products : List ProductRec
  categories : List CategoryRec
deriving DecidableEq

/-- A raised `HTTPException`. -/
structure HTTPError where
  status_code : Nat
  detail : String
deriving DecidableEq

/-- The `for key, value in update_data.items(): setattr(db_product, key, value)`
loop: overwrite exactly the fields present in the update. -/
def applyUpdate (p : ProductRec) (u : ProductUpdate) : ProductRec :=
  { p with
    name := u.name.getD p.name,
    description := u.description.getD p.description,
    price := u.price.getD p.price,
    quantity := u.quantity.getD p.quantity,
    low_stock_threshold := u.low_stock_threshold.getD p.low_stock_threshold,
    category_id := u.category_id.getD p.category_id }

/-- The low-stock alert text:
`f"Niski stan magazynowy produktu: {name} (Ilość: {quantity})"`. -/
def alertText (name : String) (quantity : Int) : String :=
  "Niski stan magazynowy produktu: " ++ name ++ " (Ilość: " ++ toString quantity ++ ")"

/-- Endpoint PUT /products/:product_id (`update_product`): look the product up
(404 if absent), check a non-null updated category exists (404 if not),
apply the update, commit, broadcast a `product_updated` message with the
post-commit field values and loaded category, then — if the stored quantity
is now strictly below the stored threshold — broadcast one `alert` message.
Returns the new table state, the updated product, and the broadcast
messages in order. -/
def update_product (db : DB) (product_id : Nat) (u : ProductUpdate) :
    Except HTTPError (DB × ProductRec × List WsMessage) :=
  match db.products.find? (fun p => p.id == product_id) with
  | none => Except.error { status_code := 404, detail := "Product not found" }
  | some db_product =>
    let catCheck : Except HTTPError Unit :=
      match u.category_id with
      | some (some cid) =>
        match db.categories.find? (fun c => c.id == cid) with
        | none => Except.error { status_code := 404, detail := "Category not found" }
        | some _ => Except.ok ()
      | _ => Except.ok ()
    match catCheck with
    | Except.error e => Except.error e
    | Except.ok _ =>
      let p1 := applyUpdate db_product u
      let db1 : DB :=
        { db with products := db.products.map (fun q => if q.id == product_id then p1 else q) }
      let cat := p1.category_id.bind (fun cid => db1.categories.find? (fun c => c.id == cid))
      let msgs :=
        [WsMessage.product_updated p1 cat] ++
          (if p1.quantity < p1.low_stock_threshold then
            [WsMessage.alert p1.name (alertText p1.name p1.quantity)]
          else [])
      Except.ok (db1, p1, msgs)

/-! ## Traces of registry and status operations -/

/-- One registry call: register (connect) or unregister (disconnect) a
connection at a given instant. -/
inductive RegOp where
  | register (ws : Conn) (now : Nat)
  | unregister (ws : Conn) (now : Nat)
deriving DecidableEq

/-- Apply one registry call to the module state. -/
def applyRegOp (s : SysState) : RegOp → SysState
  | RegOp.register ws now => s.connect ws now
  | RegOp.unregister ws now => s.disconnect ws now

/-- Run a finite sequence of registry calls to completion. -/
def runRegOps (s : SysState) (ops : List RegOp) : SysState :=
  ops.foldl applyRegOp s

/-- A call sequence is well formed for a given tracked list when every
unregister targets a connection tracked at the time of the call. -/
def wellFormedOps : List Conn → List RegOp → Bool
  | _, [] => true
  | conns, RegOp.register ws _ :: rest => wellFormedOps (conns ++ [ws]) rest
  | conns, RegOp.unregister ws _ :: rest =>
      decide (ws ∈ conns) && wellFormedOps (conns.erase ws) rest

/-- One `ServerStatus` method call. -/
inductive StatusOp where
  | get
  | update (st : String) (now : Nat)
  | increment (now : Nat)
  | decrement (now : Nat)
  | refresh (now : Nat)
deriving DecidableEq

/-- Apply one `ServerStatus` method call to the status (a `get` reads and
leaves the state unchanged). -/
def applyStatusOp (s : ServerStatus) : StatusOp → ServerStatus
  | StatusOp.get => s
  | StatusOp.update st now => s.update_status st now
  | StatusOp.increment now => s.increment_clients now
  | StatusOp.decrement now => s.decrement_clients now
  | StatusOp.refresh now => s.refresh_timestamp now

/-- Run a finite sequence of `ServerStatus` method calls. -/
def runStatusOps (s : ServerStatus) (ops : List StatusOp) : ServerStatus :=
  ops.foldl applyStatusOp s

/-! ## Concrete scenario data used by witnesses -/

/-- The "Widget" product of the spec's broadcast scenario. -/
def widgetProduct : ProductRec :=
  { id := 1, name := "Widget", description := none, price := 10,
    quantity := 10, low_stock_threshold := 5, category_id := none }

/-- A `product_created` message for "Widget". -/
def widgetMsg : WsMessage :=
  WsMessage.product_created widgetProduct none

/-- A one-product table holding "Widget" with quantity 10 and threshold 5. -/
def demoDB : DB :=
  { products := [widgetProduct], categories := [] }

/-- The update `{"quantity": 3}` of the spec's low-stock scenario. -/
def upd3 : ProductUpdate :=
  { quantity := some 3 }

/-- Product "Widget" after the quantity-3 update. -/
def widgetAfter : ProductRec :=
  { widgetProduct with quantity := 3 }

/-- A product already below its threshold (quantity 2, threshold 5). -/
def lowProd : ProductRec :=
  { id := 1, name := "Cable", description := none, price := 5,
    quantity := 2, low_stock_threshold := 5, category_id := none }

/-- A one-product table holding `lowProd`. -/
def lowDB : DB :=
  { products := [lowProd], categories := [] }

/-- Recognizer for `alert` messages. -/
def WsMessage.isAlert : WsMessage → Bool
  | .alert _ _ => true
  | _ => false

/-- Recognizer for `product_updated` messages. -/
def WsMessage.isProductUpdated : WsMessage → Bool
  | .product_updated _ _ => true
  | _ => false

/-- Expected output of one heartbeat tick on state `s` at instant `now`:
the status message built from the refreshed snapshot, together with the
attempted and delivered sends of its broadcast. -/
def tickOutput (s : SysState) (now : Nat) (failSet : List Conn) :
    WsMessage × (List (Conn × WsMessage) × List (Conn × WsMessage)) :=
  let msg := WsMessage.status s.server_status.status now s.server_status.connected_clients
  (msg,
    (s.manager.active_connections.map (fun c => (c, msg)),
     (s.manager.active_connections.filter (fun c => decide (c ∉ failSet))).map
       (fun c => (c, msg))))

/-! ## Helper lemmas -/

/-- The fan-out loop never returns an error: it attempts a send to every
connection of the snapshot in order and delivers exactly to those whose
send does not fail. -/
theorem broadcastGo_eq (failSet : List Conn) (msg : WsMessage) (l : List Conn) :
    broadcastGo failSet msg l =
      Except.ok (l.map (fun c => (c, msg)),
        (l.filter (fun c => decide (c ∉ failSet))).map (fun c => (c, msg))) := by
  induction l with
  | nil => rfl
  | cons c rest ih =>
    by_cases h : c ∈ failSet <;>
      simp [broadcastGo, send_json, h, ih]

/-! ## Claim theorems -/

/-- C3: a `broadcast` call sends to exactly the connections of the snapshot
copied at call time — the attempts are the snapshot in order and the
deliveries are the non-failing part of the snapshot; a connection absent
from the snapshot (in particular one registered only after the copy was
taken) receives nothing from that call, and under a duplicate-free registry
every connection receives the message at most once per call. -/
theorem C3_broadcast_snapshot (m : ConnectionManager) (msg : WsMessage)
    (failSet : List Conn) (d : Conn) :
    m.broadcast msg failSet =
      Except.ok (m.active_connections.map (fun c => (c, msg)),
        (m.active_connections.filter (fun c => decide (c ∉ failSet))).map
          (fun c => (c, msg))) ∧
    (d ∉ m.active_connections →
      ∀ x, (d, x) ∉ (m.active_connections.filter (fun c => decide (c ∉ failSet))).map
        (fun c => (c, msg))) ∧
    (m.active_connections.Nodup →
      ((m.active_connections.filter (fun c => decide (c ∉ failSet))).map
        (fun c => (c, msg))).Nodup) := by
  refine ⟨broadcastGo_eq failSet msg m.active_connections, ?_, ?_⟩
  · intro hd x hx
    rcases List.mem_map.mp hx with ⟨c, hc, hcx⟩
    have hcd : c = d := congrArg Prod.fst hcx
    exact hd (hcd ▸ List.mem_of_mem_filter hc)
  · intro hnd
    have hfil : (m.active_connections.filter (fun c => decide (c ∉ failSet))).Nodup :=
      hnd.filter _
    have hinj : Function.Injective (fun c : Conn => (c, msg)) := by
      intro a b hab
      exact congrArg Prod.fst hab
    exact hfil.map hinj

/-- Witness for C3: the spec scenario — register A=0, B=1, C=2, unregister
B, then broadcast a `product_created` for "Widget": the call delivers the
message once to A and once to C; B receives nothing. -/
theorem C3_broadcast_snapshot_witness :
    (runRegOps SysState.init
        [RegOp.register 0 0, RegOp.register 1 1, RegOp.register 2 2,
         RegOp.unregister 1 3]).manager = ConnectionManager.mk [0, 2] ∧
    (runRegOps SysState.init
        [RegOp.register 0 0, RegOp.register 1 1, RegOp.register 2 2,
         RegOp.unregister 1 3]).server_status.connected_clients = 2 ∧
    (ConnectionManager.mk [0, 2]).broadcast widgetMsg [] =
      Except.ok ([(0, widgetMsg), (2, widgetMsg)], [(0, widgetMsg), (2, widgetMsg)]) ∧
    ([(0, widgetMsg), (2, widgetMsg)] : List (Conn × WsMessage)).count (0, widgetMsg) = 1 ∧
    ([(0, widgetMsg), (2, widgetMsg)] : List (Conn × WsMessage)).count (2, widgetMsg) = 1 ∧
    ([(0, widgetMsg), (2, widgetMsg)] : List (Conn × WsMessage)).countP
      (fun p => p.1 == 1) = 0 := by
  have h := C3_broadcast_snapshot (ConnectionManager.mk [0, 2]) widgetMsg [] 1
  exact ⟨by decide, by decide, h.1.trans (by rfl), by decide, by decide, by decide⟩

/-- C4: a failing send never prevents the other sends of the same call —
`broadcast` attempts a send to every connection of the snapshot whatever
the set of failing connections is — and no send error propagates to the
caller: `broadcast` always returns a value, never an error. -/
theorem C4_broadcast_isolation (m : ConnectionManager) (msg : WsMessage)
    (failSet : List Conn) :
    ∃ att del, m.broadcast msg failSet = Except.ok (att, del) ∧
      att = m.active_connections.map (fun c => (c, msg)) := by
  exact ⟨_, _, broadcastGo_eq failSet msg m.active_connections, rfl⟩

/-- C7: `broadcast` mutates neither the connection registry nor the server
status: whatever the set of failing sends, the state after the call equals
the state before it in every field — in particular a connection whose send
failed is still registered. -/
theorem C7_broadcast_frame (s : SysState) (msg : WsMessage) (failSet : List Conn) :
    (s.broadcastStep msg failSet).1 = s ∧
    (s.broadcastStep msg failSet).1.manager.active_connections =
      s.manager.active_connections ∧
    (s.broadcastStep msg failSet).1.server_status.status = s.server_status.status ∧
    (s.broadcastStep msg failSet).1.server_status.timestamp = s.server_status.timestamp ∧
    (s.broadcastStep msg failSet).1.server_status.connected_clients =
      s.server_status.connected_clients := by
  have h : (s.broadcastStep msg failSet).1 = s := by
    simp [SysState.broadcastStep, ConnectionManager.broadcast,
      broadcastGo_eq failSet msg s.manager.active_connections]
  exact ⟨h, by rw [h], by rw [h], by rw [h], by rw [h]⟩

/-- One heartbeat iteration refreshes the timestamp, then snapshots the
refreshed status, then broadcasts that very snapshot to the current
connections. -/
theorem heartbeatTick_eq (s : SysState) (now : Nat) (failSet : List Conn) :
    heartbeatTick s now failSet =
      ({ s with server_status := s.server_status.refresh_timestamp now },
        tickOutput s now failSet) := by
  simp [heartbeatTick, SysState.broadcastStep, ConnectionManager.broadcast,
    broadcastGo_eq, tickOutput, ServerStatus.get_status, ServerStatus.refresh_timestamp]

/-- Output characterization of the heartbeat loop: `n` ticks starting at
instant `t` produce exactly the tick outputs at instants `t, t+5, …`. -/
theorem broadcast_server_status_messages (failSet : List Conn) :
    ∀ (n : Nat) (s : SysState) (t : Nat),
      (broadcast_server_status s t failSet n).1 =
        (List.range n).map (fun i => tickOutput s (t + 5 * i) failSet) := by
  intro n
  induction n with
  | zero => intro s t; rfl
  | succ n ih =>
    intro s t
    have hstep :
        (broadcast_server_status s t failSet (n + 1)).1 =
          tickOutput s t failSet ::
            (broadcast_server_status
              { s with server_status := s.server_status.refresh_timestamp t }
              (t + 5) failSet n).1 := by
      simp [broadcast_server_status, heartbeatTick_eq]
    rw [hstep, ih, List.range_succ_eq_map, List.map_cons, List.map_map]
    refine congrArg₂ List.cons (by norm_num) ?_
    refine List.map_congr_left ?_
    intro i _
    show tickOutput s (t + 5 + 5 * i) failSet = tickOutput s (t + 5 * Nat.succ i) failSet
    congr 1
    omega

/-- C8: each heartbeat tick refreshes the `ServerStatus` timestamp, reads
one atomic snapshot and broadcasts it to the current connections as a
message whose `"type"` discriminator is `"status"` and whose `status`,
`timestamp` and `connected_clients` fields all come from that one snapshot;
the clock advances by the fixed period 5 between consecutive ticks, so the
`i`-th tick of a run starting at instant `t` carries timestamp `t + 5·i`. -/
theorem C8_heartbeat (s : SysState) (t : Nat) (failSet : List Conn) (n : Nat)
    (st : String) (ts : Nat) (cc : Int) :
    heartbeatTick s t failSet =
      ({ s with server_status := s.server_status.refresh_timestamp t },
        (s.server_status.refresh_timestamp t).get_status,
        (tickOutput s t failSet).2) ∧
    (s.server_status.refresh_timestamp t).get_status =
      WsMessage.status s.server_status.status t s.server_status.connected_clients ∧
    (WsMessage.status st ts cc).msgType = "status" ∧
    (broadcast_server_status s t failSet n).1 =
      (List.range n).map (fun i => tickOutput s (t + 5 * i) failSet) := by
  exact ⟨heartbeatTick_eq s t failSet, rfl, rfl,
    broadcast_server_status_messages failSet n s t⟩

/-- Invariant transport for well-formed call sequences: if the counter
matches the number of tracked connections, it still does after any sequence
whose unregisters all target tracked connections. -/
theorem runRegOps_counter_eq_length :
    ∀ (ops : List RegOp) (s : SysState),
      wellFormedOps s.manager.active_connections ops = true →
      s.server_status.connected_clients = (s.manager.active_connections.length : Int) →
      (runRegOps s ops).server_status.connected_clients =
        ((runRegOps s ops).manager.active_connections.length : Int) := by
  intro ops
  induction ops with
  | nil =>
    intro s _ hinv
    simpa [runRegOps] using hinv
  | cons op rest ih =>
    intro s hwf hinv
    cases op with
    | register ws now =>
      refine ih (s.connect ws now) ?_ ?_
      · simpa [wellFormedOps, SysState.connect] using hwf
      · simp [SysState.connect, ServerStatus.increment_clients, hinv]
    | unregister ws now =>
      rw [show wellFormedOps s.manager.active_connections (RegOp.unregister ws now :: rest) =
            (decide (ws ∈ s.manager.active_connections) &&
              wellFormedOps (s.manager.active_connections.erase ws) rest) from rfl,
        Bool.and_eq_true] at hwf
      obtain ⟨hmem', hrest⟩ := hwf
      have hmem : ws ∈ s.manager.active_connections := of_decide_eq_true hmem'
      refine ih (s.disconnect ws now) ?_ ?_
      · simpa [SysState.disconnect, hmem] using hrest
      · have hlen : (s.disconnect ws now).manager.active_connections.length =
            s.manager.active_connections.length - 1 := by
          simp [SysState.disconnect, hmem, List.length_erase_of_mem hmem]
        have hpos : 1 ≤ s.manager.active_connections.length :=
          List.length_pos.mpr (List.ne_nil_of_mem hmem)
        have hcc : (s.disconnect ws now).server_status.connected_clients =
            max 0 (s.server_status.connected_clients - 1) := rfl
        rw [hcc, hlen, hinv]
        omega

/-- C1 as frozen is refuted by the code: in the sequence register 0,
register 1, unregister 2 the final unregister targets an untracked
connection, yet `decrement_clients` still fires, leaving the counter at 1
while two connections stay tracked. -/
theorem C1_counterexample :
    (runRegOps SysState.init
        [RegOp.register 0 0, RegOp.register 1 1,
         RegOp.unregister 2 2]).server_status.connected_clients ≠
      ((runRegOps SysState.init
        [RegOp.register 0 0, RegOp.register 1 1,
         RegOp.unregister 2 2]).manager.active_connections.length : Int) := by
  decide

/-- C1 (amended): for every finite sequence of register/unregister calls in
which each unregister targets a connection tracked at the time of the call,
after the whole sequence completes `ServerStatus.connected_clients` equals
the number of connections still tracked by the `ConnectionManager`. -/
theorem C1_counter_matches_registry (ops : List RegOp)
    (h : wellFormedOps [] ops = true) :
    (runRegOps SysState.init ops).server_status.connected_clients =
      ((runRegOps SysState.init ops).manager.active_connections.length : Int) :=
  runRegOps_counter_eq_length ops SysState.init h rfl

/-- Witness for C1 (amended): register 0, register 1, unregister 0 is well
formed and ends with counter 1 and one tracked connection. -/
theorem C1_counter_matches_registry_witness :
    wellFormedOps []
      [RegOp.register 0 0, RegOp.register 1 1, RegOp.unregister 0 2] = true ∧
    (runRegOps SysState.init
        [RegOp.register 0 0, RegOp.register 1 1,
         RegOp.unregister 0 2]).server_status.connected_clients =
      ((runRegOps SysState.init
        [RegOp.register 0 0, RegOp.register 1 1,
         RegOp.unregister 0 2]).manager.active_connections.length : Int) :=
  ⟨by decide,
    C1_counter_matches_registry
      [RegOp.register 0 0, RegOp.register 1 1, RegOp.unregister 0 2] (by decide)⟩

/-- Nonnegativity survives any sequence of `ServerStatus` method calls. -/
theorem runStatusOps_nonneg :
    ∀ (ops : List StatusOp) (s : ServerStatus),
      0 ≤ s.connected_clients → 0 ≤ (runStatusOps s ops).connected_clients := by
  intro ops
  induction ops with
  | nil =>
    intro s h
    simpa [runStatusOps] using h
  | cons op rest ih =>
    intro s h
    refine ih (applyStatusOp s op) ?_
    cases op with
    | get => exact h
    | update st now => exact h
    | increment now =>
      simp [applyStatusOp, ServerStatus.increment_clients]
      omega
    | decrement now =>
      exact le_max_left 0 _
    | refresh now => exact h

/-- C5: `decrement_clients` never drives the counter below zero — from any
state its result is nonnegative — and `connected_clients ≥ 0` is preserved
by each of the five `ServerStatus` operations and holds after every finite
call sequence from the initial state. -/
theorem C5_counter_nonneg (s : ServerStatus) (now : Nat) (op : StatusOp)
    (ops : List StatusOp) :
    0 ≤ (s.decrement_clients now).connected_clients ∧
    (0 ≤ s.connected_clients → 0 ≤ (applyStatusOp s op).connected_clients) ∧
    0 ≤ (runStatusOps ServerStatus.init ops).connected_clients := by
  refine ⟨le_max_left 0 _, ?_, runStatusOps_nonneg ops ServerStatus.init le_rfl⟩
  intro h
  cases op with
  | get => exact h
  | update st now2 => exact h
  | increment now2 =>
    simp [applyStatusOp, ServerStatus.increment_clients]
    omega
  | decrement now2 => exact le_max_left 0 _
  | refresh now2 => exact h

/-- Witness for C5: concrete instances of the three conjuncts, with the
preservation hypothesis discharged at the initial state. -/
theorem C5_counter_nonneg_witness :
    0 ≤ (ServerStatus.init.decrement_clients 1).connected_clients ∧
    0 ≤ (applyStatusOp ServerStatus.init (StatusOp.increment 2)).connected_clients ∧
    0 ≤ (runStatusOps ServerStatus.init
          [StatusOp.decrement 3, StatusOp.decrement 4]).connected_clients := by
  have h := C5_counter_nonneg ServerStatus.init 1 (StatusOp.increment 2)
    [StatusOp.decrement 3, StatusOp.decrement 4]
  exact ⟨h.1, h.2.1 (by decide), h.2.2⟩

/-- C6 as frozen is refuted by the code: after registering connections 0
and 1, disconnecting 0 twice does not have the same effect as disconnecting
it once — the second call decrements the client counter again (1 versus 0).
With a doubly registered connection even the tracked list differs after one
versus two disconnects. -/
theorem C6_counterexample :
    ((((SysState.init.connect 0 0).connect 1 1).disconnect 0 2).disconnect 0 3 ≠
        ((SysState.init.connect 0 0).connect 1 1).disconnect 0 2) ∧
    ((((SysState.init.connect 0 0).connect 1 1).disconnect 0 2).disconnect 0
        3).server_status.connected_clients = 0 ∧
    (((SysState.init.connect 0 0).connect 1 1).disconnect 0
        2).server_status.connected_clients = 1 ∧
    ((((SysState.init.connect 0 0).connect 0 1).disconnect 0 2).disconnect 0
        3).manager.active_connections ≠
      (((SysState.init.connect 0 0).connect 0 1).disconnect 0
        2).manager.active_connections := by
  refine ⟨?_, by decide, by decide, by decide⟩
  intro h
  have := congrArg (fun st => st.server_status.connected_clients) h
  simp at this
  exact absurd this (by decide)

/-- C6 (amended): `disconnect` removes the first occurrence of the
connection from the tracked list if present; on an absent connection the
tracked list is unchanged and no error is raised; a second disconnect of a
connection that was tracked at most once leaves the tracked list exactly as
one disconnect did — but every call additionally decrements the client
counter (floored at zero), so repeated disconnects are idempotent on the
tracked list only, not on the whole state. -/
theorem C6_disconnect_idempotent_on_registry (s : SysState) (ws : Conn)
    (now1 now2 : Nat) :
    (ws ∉ s.manager.active_connections →
      (s.disconnect ws now1).manager.active_connections =
        s.manager.active_connections) ∧
    (ws ∈ s.manager.active_connections →
      (s.disconnect ws now1).manager.active_connections =
        s.manager.active_connections.erase ws) ∧
    (s.manager.active_connections.count ws ≤ 1 →
      ((s.disconnect ws now1).disconnect ws now2).manager.active_connections =
        (s.disconnect ws now1).manager.active_connections) ∧
    (s.disconnect ws now1).server_status.connected_clients =
      max 0 (s.server_status.connected_clients - 1) := by
  refine ⟨?_, ?_, ?_, rfl⟩
  · intro h
    simp [SysState.disconnect, h]
  · intro h
    simp [SysState.disconnect, h]
  · intro hcount
    by_cases h : ws ∈ s.manager.active_connections
    · have h1 : (s.disconnect ws now1).manager.active_connections =
          s.manager.active_connections.erase ws := by
        simp [SysState.disconnect, h]
      have hpos : 1 ≤ s.manager.active_connections.count ws :=
        List.count_pos_iff.mpr h
      have herase := List.count_erase_self ws s.manager.active_connections
      have hc0 : (s.manager.active_connections.erase ws).count ws = 0 := by omega
      have hnot : ws ∉ s.manager.active_connections.erase ws :=
        List.count_eq_zero.mp hc0
      show (SysState.disconnect _ ws now2).manager.active_connections = _
      rw [SysState.disconnect]
      simp [h1, hnot]
    · have h1 : (s.disconnect ws now1).manager.active_connections =
          s.manager.active_connections := by
        simp [SysState.disconnect, h]
      show (SysState.disconnect _ ws now2).manager.active_connections = _
      rw [SysState.disconnect]
      simp [h1, h]

/-- Witness for C6 (amended): with one tracked connection 0, disconnecting
the absent 1 keeps the list `[0]`, disconnecting 0 twice yields the same
list as once, and the counter is floored correctly. -/
theorem C6_disconnect_idempotent_on_registry_witness :
    ((SysState.init.connect 0 0).disconnect 1 1).manager.active_connections = [0] ∧
    (((SysState.init.connect 0 0).disconnect 0 1).disconnect 0
        2).manager.active_connections =
      ((SysState.init.connect 0 0).disconnect 0 1).manager.active_connections ∧
    ((SysState.init.connect 0 0).disconnect 0 1).server_status.connected_clients =
      max 0 (1 - 1) := by
  have h1 := C6_disconnect_idempotent_on_registry (SysState.init.connect 0 0) 1 1 2
  have h2 := C6_disconnect_idempotent_on_registry (SysState.init.connect 0 0) 0 1 2
  exact ⟨(h1.1 (by decide)).trans (by decide), h2.2.2.1 (by decide),
    h2.2.2.2.trans (by decide)⟩

/-- C9: disconnecting a connection that is not tracked leaves the tracked
list unchanged, yet still decrements the client counter (floored at zero)
and refreshes the timestamp — the counter side effect fires
unconditionally. -/
theorem C9_disconnect_absent (s : SysState) (ws : Conn) (now : Nat)
    (h : ws ∉ s.manager.active_connections) :
    (s.disconnect ws now).manager.active_connections =
      s.manager.active_connections ∧
    (s.disconnect ws now).server_status.connected_clients =
      max 0 (s.server_status.connected_clients - 1) ∧
    (s.disconnect ws now).server_status.timestamp = now ∧
    (s.disconnect ws now).server_status.status = s.server_status.status := by
  refine ⟨?_, rfl, rfl, rfl⟩
  simp [SysState.disconnect, h]

/-- Witness for C9: with only connection 0 tracked and counter 1,
disconnecting the absent connection 5 at instant 7 keeps the list `[0]`,
drops the counter to 0 and stamps the time 7. -/
theorem C9_disconnect_absent_witness :
    ((SysState.init.connect 0 0).disconnect 5 7).manager.active_connections = [0] ∧
    ((SysState.init.connect 0 0).disconnect 5 7).server_status.connected_clients = 0 ∧
    ((SysState.init.connect 0 0).disconnect 5 7).server_status.timestamp = 7 := by
  have h := C9_disconnect_absent (SysState.init.connect 0 0) 5 7 (by decide)
  exact ⟨h.1.trans (by decide), h.2.1.trans (by decide), h.2.2.1⟩

/-- Shape of every successful `update_product` call: the returned product is
the found product with the set fields overwritten, and the broadcast list is
one `product_updated` message followed by one `alert` message exactly when
the post-update quantity is strictly below the post-update threshold. -/
theorem update_product_ok_shape (db : DB) (pid : Nat) (u : ProductUpdate)
    (q : ProductRec) (db' : DB) (p : ProductRec) (msgs : List WsMessage)
    (hf : db.products.find? (fun r => r.id == pid) = some q)
    (h : update_product db pid u = Except.ok (db', p, msgs)) :
    p = applyUpdate q u ∧
    msgs = WsMessage.product_updated (applyUpdate q u)
        ((applyUpdate q u).category_id.bind
          (fun cid => db.categories.find? (fun c => c.id == cid))) ::
      (if (applyUpdate q u).quantity < (applyUpdate q u).low_stock_threshold then
        [WsMessage.alert (applyUpdate q u).name
          (alertText (applyUpdate q u).name (applyUpdate q u).quantity)]
      else []) := by
  unfold update_product at h
  rw [hf] at h
  rcases hu : u.category_id with _ | ocid
  · rw [hu] at h
    dsimp only at h
    injection h with hpair
    injection hpair with h1 hrest
    injection hrest with h2 h3
    subst h1
    subst h2
    subst h3
    exact ⟨rfl, rfl⟩
  · rw [hu] at h
    cases ocid with
    | none =>
      dsimp only at h
      injection h with hpair
      injection hpair with h1 hrest
      injection hrest with h2 h3
      subst h1
      subst h2
      subst h3
      exact ⟨rfl, rfl⟩
    | some cid =>
      dsimp only at h
      cases hc : db.categories.find? (fun c => c.id == cid) with
      | none =>
        rw [hc] at h
        exact absurd h (by simp)
      | some cat =>
        rw [hc] at h
        dsimp only at h
        injection h with hpair
        injection hpair with h1 hrest
        injection hrest with h2 h3
        subst h1
        subst h2
        subst h3
        exact ⟨rfl, rfl⟩

/-- C2: every successful product update broadcasts exactly one
`product_updated` message, and exactly one `alert` message if and only if
the post-update quantity is strictly below the post-update threshold (none
otherwise); the alert text carries the product name and the post-update
quantity; and the product whose quantity the check reads is the found
product with the update already applied, never the pre-update record. -/
theorem C2_update_alert (db : DB) (pid : Nat) (u : ProductUpdate)
    (db' : DB) (p : ProductRec) (msgs : List WsMessage)
    (h : update_product db pid u = Except.ok (db', p, msgs)) :
    msgs.countP WsMessage.isProductUpdated = 1 ∧
    msgs.countP WsMessage.isAlert =
      (if p.quantity < p.low_stock_threshold then 1 else 0) ∧
    (p.quantity < p.low_stock_threshold →
      WsMessage.alert p.name (alertText p.name p.quantity) ∈ msgs) ∧
    (∀ q, db.products.find? (fun r => r.id == pid) = some q →
      p = applyUpdate q u) := by
  cases hf : db.products.find? (fun r => r.id == pid) with
  | none =>
    rw [update_product, hf] at h
    exact absurd h (by simp)
  | some q =>
    obtain ⟨hp, hmsgs⟩ := update_product_ok_shape db pid u q db' p msgs hf h
    subst hp
    subst hmsgs
    have hlast : ∀ q', (some q : Option ProductRec) = some q' →
        applyUpdate q u = applyUpdate q' u := by
      intro q' hq'
      injection hq' with hqq
      rw [hqq]
    by_cases hq : (applyUpdate q u).quantity < (applyUpdate q u).low_stock_threshold
    · refine ⟨?_, ?_, fun _ => ?_, hlast⟩
      · simp [hq, List.countP_cons, WsMessage.isProductUpdated]
      · simp [hq, List.countP_cons, WsMessage.isAlert, WsMessage.isProductUpdated]
      · simp [hq]
    · refine ⟨?_, ?_, fun hcontra => absurd hcontra hq, hlast⟩
      · simp [hq, List.countP_cons, WsMessage.isProductUpdated]
      · simp [hq, List.countP_cons, WsMessage.isAlert]

/-- Witness for C2: the spec scenario — "Widget" with quantity 10 and
threshold 5 updated to quantity 3 yields exactly one `product_updated` and
one `alert`, whose text contains the name and the digit 3. -/
theorem C2_update_alert_witness :
    update_product demoDB 1 upd3 =
      Except.ok ({ products := [widgetAfter], categories := [] }, widgetAfter,
        [WsMessage.product_updated widgetAfter none,
         WsMessage.alert "Widget"
           "Niski stan magazynowy produktu: Widget (Ilość: 3)"]) ∧
    ([WsMessage.product_updated widgetAfter none,
      WsMessage.alert "Widget"
        "Niski stan magazynowy produktu: Widget (Ilość: 3)"].countP
      WsMessage.isProductUpdated = 1) ∧
    ([WsMessage.product_updated widgetAfter none,
      WsMessage.alert "Widget"
        "Niski stan magazynowy produktu: Widget (Ilość: 3)"].countP
      WsMessage.isAlert = 1) ∧
    WsMessage.alert widgetAfter.name (alertText widgetAfter.name widgetAfter.quantity) ∈
      [WsMessage.product_updated widgetAfter none,
       WsMessage.alert "Widget"
         "Niski stan magazynowy produktu: Widget (Ilość: 3)"] ∧
    alertText "Widget" 3 = "Niski stan magazynowy produktu: Widget (Ilość: 3)" := by
  have hrun : update_product demoDB 1 upd3 =
      Except.ok ({ products := [widgetAfter], categories := [] }, widgetAfter,
        [WsMessage.product_updated widgetAfter none,
         WsMessage.alert "Widget"
           "Niski stan magazynowy produktu: Widget (Ilość: 3)"]) := by rfl
  have h := C2_update_alert demoDB 1 upd3 _ _ _ hrun
  exact ⟨hrun, h.1, h.2.1.trans (by decide), h.2.2.1 (by decide), by rfl⟩

/-- C10: the low-stock check runs on every successful update whatever
fields were set — updating only the name of a product whose stored quantity
is already below its threshold still emits exactly one alert, carrying the
unchanged quantity and the new name. -/
theorem C10_alert_on_name_only_update (db : DB) (pid : Nat) (q : ProductRec)
    (newName : String)
    (hf : db.products.find? (fun r => r.id == pid) = some q)
    (hlow : q.quantity < q.low_stock_threshold) :
    ∃ db' p msgs,
      update_product db pid { name := some newName } = Except.ok (db', p, msgs) ∧
      p.quantity = q.quantity ∧
      p.low_stock_threshold = q.low_stock_threshold ∧
      p.name = newName ∧
      msgs.countP WsMessage.isAlert = 1 ∧
      WsMessage.alert p.name (alertText p.name p.quantity) ∈ msgs := by
  have hq : (applyUpdate q { name := some newName }).quantity <
      (applyUpdate q { name := some newName }).low_stock_threshold := hlow
  have hrun : update_product db pid { name := some newName } =
      Except.ok
        (DB.mk
          (db.products.map
            (fun r => if r.id == pid then applyUpdate q { name := some newName } else r))
          db.categories,
         applyUpdate q { name := some newName },
         [WsMessage.product_updated (applyUpdate q { name := some newName })
            ((applyUpdate q { name := some newName }).category_id.bind
              (fun cid => db.categories.find? (fun c => c.id == cid))),
          WsMessage.alert (applyUpdate q { name := some newName }).name
            (alertText (applyUpdate q { name := some newName }).name
              (applyUpdate q { name := some newName }).quantity)]) := by
    rw [update_product, hf]
    dsimp only
    rw [if_pos hq]
    rfl
  refine ⟨_, _, _, hrun, rfl, rfl, rfl, ?_, ?_⟩
  · simp [List.countP_cons, WsMessage.isAlert]
  · simp

/-- Witness for C10: product "Cable" with quantity 2 and threshold 5,
renamed to "Gadget": the update succeeds and broadcasts one alert carrying
quantity 2. -/
theorem C10_alert_on_name_only_update_witness :
    ∃ db' p msgs,
      update_product lowDB 1 { name := some "Gadget" } = Except.ok (db', p, msgs) ∧
      p.quantity = lowProd.quantity ∧
      p.low_stock_threshold = lowProd.low_stock_threshold ∧
      p.name = "Gadget" ∧
      msgs.countP WsMessage.isAlert = 1 ∧
      WsMessage.alert p.name (alertText p.name p.quantity) ∈ msgs :=
  C10_alert_on_name_only_update lowDB 1 lowProd "Gadget" (by rfl) (by decide)
